import Mathlib

/-!
Shallow embedding of the Reelflow short-form video server.

The program is an Express REST API over a relational store.  We embed the
storage access layer (server/storage.ts, class DatabaseStorage), the upload
validation pipeline (server/videoValidator.ts and server/deepgram.ts, with
the variant validator server/videoValidation.ts), and the route handlers the
claims are about (server/routes.ts, all three variants of the file).

The database is modelled as explicit lists of rows; SQL queries become pure
list operations (filter, sort, drop/take for LIMIT/OFFSET, find? for a WHERE
on a key).  External effects (ffprobe, the Deepgram transcription API, the
Gemini classification API, S3) are modelled as environment parameters that
carry the outcome each call would produce; a thrown exception is an
`Except.error` outcome.  Row timestamps are natural numbers.
-/

namespace Reelflow

/-- A row of the `users` table (shared/schema.ts). -/
structure User where
  id : String
  email : Option String
  username : Option String
  deriving Repr, DecidableEq

/-- A row of the `videos` table: owner, metadata, counters, visibility. -/
structure Video where
  id : String
  userId : String
  title : String
  description : String
  videoUrl : String
  s3Key : Option String
  duration : Option Nat
  viewCount : Int
  likeCount : Int
  commentCount : Int
  isPublic : Bool
  createdAt : Nat
  deriving Repr, DecidableEq

/-- A row of the `likes` table: a (user id, video id) pair. -/
structure Like where
  userId : String
  videoId : String
  deriving Repr, DecidableEq

/-- A row of the `comments` table. -/
structure Comment where
  id : String
  videoId : String
  userId : String
  content : String
  createdAt : Nat
  deriving Repr, DecidableEq

/-- A row of the `follows` table: a (follower id, followee id) pair. -/
structure Follow where
  followerId : String
  followingId : String
  deriving Repr, DecidableEq

/-- The whole store, one list of rows per table. -/
structure DB where
  users : List User
  videos : List Video
  likes : List Like
  comments : List Comment
  follows : List Follow
  deriving Repr, DecidableEq

/-- The empty store. -/
def DB.empty : DB :=
  { users := [], videos := [], likes := [], comments := [], follows := [] }

/-- ORDER BY videos.createdAt DESC: newer (larger timestamp) rows first. -/
def videoDesc (a b : Video) : Prop :=
  b.createdAt ≤ a.createdAt

instance : DecidableRel videoDesc :=
  fun a b => Nat.decLe b.createdAt a.createdAt

instance : IsTotal Video videoDesc :=
  ⟨fun a b => Nat.le_total b.createdAt a.createdAt⟩

instance : IsTrans Video videoDesc :=
  ⟨fun _ _ _ hab hbc => Nat.le_trans hbc hab⟩

/-- ORDER BY comments.createdAt DESC. -/
def commentDesc (a b : Comment) : Prop :=
  b.createdAt ≤ a.createdAt

instance : DecidableRel commentDesc :=
  fun a b => Nat.decLe b.createdAt a.createdAt

instance : IsTotal Comment commentDesc :=
  ⟨fun a b => Nat.le_total b.createdAt a.createdAt⟩

instance : IsTrans Comment commentDesc :=
  ⟨fun _ _ _ hab hbc => Nat.le_trans hbc hab⟩

/-- SELECT * FROM users WHERE id = userId (DatabaseStorage.getUser / the user
side of the joins). -/
def findUser (db : DB) (userId : String) : Option User :=
  db.users.find? (fun u => u.id == userId)

/-- DatabaseStorage.isVideoLiked: whether a like row for the pair exists. -/
def isVideoLiked (db : DB) (userId videoId : String) : Bool :=
  db.likes.any (fun l => l.userId == userId && l.videoId == videoId)

/-- The public videos ordered by creation time descending, i.e. the row set
of `select ... from videos ... where isPublic order by createdAt desc`. -/
def publicSorted (db : DB) : List Video :=
  List.insertionSort videoDesc (db.videos.filter (fun v => v.isPublic))

/-- Rows offset .. offset+limit of the public-by-createdAt-desc ordering:
the effect of `.limit(limit).offset(offset)` in DatabaseStorage.getVideos. -/
def feedWindow (db : DB) (limit offset : Nat) : List Video :=
  ((publicSorted db).drop offset).take limit

/-- The shape DatabaseStorage returns for a video joined with its owner. -/
structure VideoWithUser where
  video : Video
  user : User
  likes : List Like
  comments : List Comment
  isLiked : Bool
  deriving Repr, DecidableEq

/-- The per-row body of the loop in DatabaseStorage.getVideos: the left join
produced `video` and, when the owner row exists, `user`; a row whose user is
null is skipped (`if (!user) continue`), otherwise the video's likes and
comments are attached and `isLiked` computed for the requesting user. -/
def attachUser (db : DB) (userId : Option String) (v : Video) : Option VideoWithUser :=
  match findUser db v.userId with
  | none => none
  | some u =>
      some { video := v
             user := u
             likes := db.likes.filter (fun l => l.videoId == v.id)
             comments := db.comments.filter (fun c => c.videoId == v.id)
             isLiked :=
               match userId with
               | some uid => isVideoLiked db uid v.id
               | none => false }

/-- DatabaseStorage.getVideos: page the public videos newest-first, then keep
only the rows whose owner user exists. -/
def getVideos (db : DB) (userId : Option String) (limit offset : Nat) :
    List VideoWithUser :=
  (feedWindow db limit offset).filterMap (attachUser db userId)

/-- DatabaseStorage.getVideo: the first video row with the id, left-joined
with its owner; `undefined` when either the video or its owner is missing. -/
def getVideo (db : DB) (id : String) (userId : Option String) :
    Option VideoWithUser :=
  match db.videos.find? (fun v => v.id == id) with
  | none => none
  | some v => attachUser db userId v

/-- DatabaseStorage.createVideo: INSERT INTO videos. -/
def createVideo (db : DB) (v : Video) : DB :=
  { db with videos := db.videos ++ [v] }

/-- DatabaseStorage.incrementViewCount: viewCount + 1 on the matching row. -/
def incrementViewCount (db : DB) (videoId : String) : DB :=
  { db with
    videos := db.videos.map (fun v =>
      if v.id == videoId then { v with viewCount := v.viewCount + 1 } else v) }

/-- DatabaseStorage.likeVideo: INSERT the like row, then likeCount + 1. -/
def likeVideo (db : DB) (userId videoId : String) : DB :=
  { db with
    likes := db.likes ++ [{ userId := userId, videoId := videoId }]
    videos := db.videos.map (fun v =>
      if v.id == videoId then { v with likeCount := v.likeCount + 1 } else v) }

/-- DatabaseStorage.unlikeVideo: DELETE the matching like rows, then
likeCount - 1. -/
def unlikeVideo (db : DB) (userId videoId : String) : DB :=
  { db with
    likes := db.likes.filter (fun l => !(l.userId == userId && l.videoId == videoId))
    videos := db.videos.map (fun v =>
      if v.id == videoId then { v with likeCount := v.likeCount - 1 } else v) }

/-- The shape DatabaseStorage.getComments returns per row. -/
structure CommentWithUser where
  comment : Comment
  user : User
  deriving Repr, DecidableEq

/-- DatabaseStorage.getComments: the video's comments newest-first, paged,
left-joined with their author; rows whose author user is missing are
filtered out (`.filter(({ user }) => user)`). -/
def getComments (db : DB) (videoId : String) (limit offset : Nat) :
    List CommentWithUser :=
  let window :=
    ((List.insertionSort commentDesc
        (db.comments.filter (fun c => c.videoId == videoId))).drop offset).take limit
  window.filterMap (fun c =>
    (findUser db c.userId).map (fun u => { comment := c, user := u }))

/-- DatabaseStorage.createComment: INSERT the comment, then commentCount + 1
on its video. -/
def createComment (db : DB) (c : Comment) : DB :=
  { db with
    comments := db.comments ++ [c]
    videos := db.videos.map (fun v =>
      if v.id == c.videoId then { v with commentCount := v.commentCount + 1 } else v) }

/-- DatabaseStorage.followUser: INSERT the follow row. -/
def followUser (db : DB) (followerId followingId : String) : DB :=
  { db with
    follows := db.follows ++ [{ followerId := followerId, followingId := followingId }] }

/-- DatabaseStorage.unfollowUser: DELETE the matching follow rows. -/
def unfollowUser (db : DB) (followerId followingId : String) : DB :=
  { db with
    follows := db.follows.filter (fun f =>
      !(f.followerId == followerId && f.followingId == followingId)) }

/-- DatabaseStorage.isFollowing: whether a follow row for the pair exists. -/
def isFollowing (db : DB) (followerId followingId : String) : Bool :=
  db.follows.any (fun f =>
    f.followerId == followerId && f.followingId == followingId)

/-! ## The upload validation pipeline (server/videoValidator.ts, server/deepgram.ts) -/

/-- The result of GeminiService.analyzeEducationalContent. -/
structure EducationalAnalysis where
  is_educational : Bool
  reason : Option String
  topic : Option String
  deriving Repr, DecidableEq

/-- The observable outcome of one call to the Deepgram transcription API, as
consumed by DeepgramService.transcribeVideo: whether the client was built
(DEEPGRAM_API_KEY set), the error field of the response, and the transcript
text extracted from the first alternative (the empty string when absent). -/
structure DeepgramOutcome where
  configured : Bool
  apiError : Option String
  transcript : String
  deriving Repr, DecidableEq

/-- The truthiness test `!s.trim()` used by the TS sources on transcripts:
a string is blank exactly when it consists of whitespace only, i.e. when
trimming it yields the empty string.  (String.trim itself is defined by
well-founded recursion and does not reduce in the kernel, so the embedding
uses this equivalent character-level test.) -/
def isBlank (s : String) : Bool :=
  s.toList.all Char.isWhitespace

/-- DeepgramService.transcribeVideo (server/deepgram.ts): throws when the
client is missing, when the API reports an error, or when the transcript is
blank after trimming; every throw is caught and re-thrown as the single
message "Failed to transcribe video".  Otherwise the transcript is returned. -/
def DeepgramService.transcribeVideo (o : DeepgramOutcome) : Except String String :=
  if !o.configured then
    Except.error "Failed to transcribe video"
  else
    match o.apiError with
    | some _ => Except.error "Failed to transcribe video"
    | none =>
        if isBlank o.transcript then
          Except.error "Failed to transcribe video"
        else
          Except.ok o.transcript

deriving instance DecidableEq for Except

/-- The environment of one VideoValidator.validateVideo run: the outcome of
the ffprobe duration probe (getVideoDuration, already rounded; an error
models a rejected promise), the two isConfigured flags, the Deepgram API
outcome, and the outcome of the Gemini classification call
(GeminiService.analyzeEducationalContent is an external HTTP call; its
wrapper module is outside the storage/validator sources, so its outcome is
an environment parameter here). -/
structure ValidationEnv where
  probeResult : Except String Nat
  deepgramConfigured : Bool
  geminiConfigured : Bool
  deepgram : DeepgramOutcome
  geminiResult : Except String EducationalAnalysis
  deriving Repr, DecidableEq

/-- The multer file the validator receives: size in bytes and mime type. -/
structure VideoFile where
  size : Nat
  mimetype : String
  originalname : String
  deriving Repr, DecidableEq

/-- The VideoValidationResult record built by VideoValidator.validateVideo. -/
structure ValidationResult where
  isValid : Bool
  errors : List String
  duration : Option Nat
  fileSize : Nat
  educationalAnalysis : Option EducationalAnalysis
  transcript : Option String
  deriving Repr, DecidableEq

/-- Which of the two external AI calls the validator actually performed. -/
structure ValidationTrace where
  transcribeCalled : Bool
  classifyCalled : Bool
  deriving Repr, DecidableEq

/-- VideoValidator.MAX_DURATION_SECONDS (1 minute). -/
def VideoValidator.MAX_DURATION_SECONDS : Nat := 60

/-- VideoValidator.MAX_FILE_SIZE_BYTES (10MB). -/
def VideoValidator.MAX_FILE_SIZE_BYTES : Nat := 10 * 1024 * 1024

/-- VideoValidator.validateVideo, line by line: mark invalid if the size
exceeds 10MB; probe the duration (a probe error is caught and marks the
result invalid); mark invalid if the duration exceeds 60 seconds; return
early if basic validation failed; return (still valid) if either AI service
is unconfigured; transcribe (a throw is caught and marks invalid); reject a
blank transcript; classify (a throw is caught and marks invalid); reject a
not-educational verdict.  The second component records which AI calls ran.
Interpolated values in the error strings are abstracted away. -/
def VideoValidator.validateVideo (env : ValidationEnv) (file : VideoFile) :
    ValidationResult × ValidationTrace :=
  let r0 : ValidationResult :=
    { isValid := true, errors := [], duration := none, fileSize := file.size,
      educationalAnalysis := none, transcript := none }
  let r1 :=
    if file.size > VideoValidator.MAX_FILE_SIZE_BYTES then
      { r0 with isValid := false,
                errors := r0.errors ++ ["File size exceeds maximum allowed size of 10MB"] }
    else r0
  match env.probeResult with
  | Except.error e =>
      ({ r1 with isValid := false, errors := r1.errors ++ ["Validation failed: " ++ e] },
       { transcribeCalled := false, classifyCalled := false })
  | Except.ok d =>
      let r2 := { r1 with duration := some d }
      let r3 :=
        if d > VideoValidator.MAX_DURATION_SECONDS then
          { r2 with isValid := false,
                    errors := r2.errors ++
                      ["Video duration exceeds maximum allowed duration of 60 seconds"] }
        else r2
      if !r3.isValid then
        (r3, { transcribeCalled := false, classifyCalled := false })
      else if !(env.deepgramConfigured && env.geminiConfigured) then
        ({ r3 with errors := r3.errors ++ ["Educational content validation is not configured"] },
         { transcribeCalled := false, classifyCalled := false })
      else
        match DeepgramService.transcribeVideo env.deepgram with
        | Except.error e =>
            ({ r3 with isValid := false, errors := r3.errors ++ ["Validation failed: " ++ e] },
             { transcribeCalled := true, classifyCalled := false })
        | Except.ok t =>
            let r4 := { r3 with transcript := some t }
            if isBlank t then
              ({ r4 with isValid := false,
                         errors := r4.errors ++
                           ["No speech detected in video. Educational videos must contain spoken content."] },
               { transcribeCalled := true, classifyCalled := false })
            else
              match env.geminiResult with
              | Except.error e =>
                  ({ r4 with isValid := false,
                             errors := r4.errors ++ ["Validation failed: " ++ e] },
                   { transcribeCalled := true, classifyCalled := true })
              | Except.ok a =>
                  let r5 := { r4 with educationalAnalysis := some a }
                  if !a.is_educational then
                    ({ r5 with isValid := false,
                               errors := r5.errors ++ ["Video content is not educational."] },
                     { transcribeCalled := true, classifyCalled := true })
                  else
                    (r5, { transcribeCalled := true, classifyCalled := true })

/-! ## The variant validator (server/videoValidation.ts, src/unnamed/part_004) -/

/-- The VideoValidationResult shape of VideoValidationService. -/
structure VVResult where
  isValid : Bool
  duration : Option Nat
  error : Option String
  deriving Repr, DecidableEq

/-- VideoValidationService.validateFileSize: a 50MB limit. -/
def VideoValidationService.validateFileSize (fileSize : Nat) : VVResult :=
  if fileSize > 50 * 1024 * 1024 then
    { isValid := false, duration := none, error := some "File size exceeds 50MB limit" }
  else
    { isValid := true, duration := none, error := none }

/-- VideoValidationService.validateMimeType: membership in the allowed list. -/
def VideoValidationService.validateMimeType (mimeType : String) : VVResult :=
  if !(["video/mp4", "video/avi", "video/mov", "video/wmv", "video/webm",
        "video/quicktime"].contains mimeType) then
    { isValid := false, duration := none,
      error := some "Invalid video format. Allowed formats: MP4, AVI, MOV, WMV, WebM" }
  else
    { isValid := true, duration := none, error := none }

/-- VideoValidationService.validateVideoDuration over the ffprobe outcome:
an ffprobe error, a missing/zero duration, and a duration above 60 seconds
each yield an invalid result. -/
def VideoValidationService.validateVideoDuration (probe : Except String Nat) : VVResult :=
  match probe with
  | Except.error _ =>
      { isValid := false, duration := none, error := some "Failed to analyze video file" }
  | Except.ok d =>
      if d = 0 then
        { isValid := false, duration := none,
          error := some "Could not determine video duration" }
      else if d > 60 then
        { isValid := false, duration := some d,
          error := some "Video duration exceeds 1 minute limit" }
      else
        { isValid := true, duration := some d, error := none }

/-! ## Route handlers (server/routes.ts, the three variants) -/

/-- The outcome of a Zod `schema.parse(...)` call inside a handler's try
block, together with the possibility of some other exception thrown later in
the same block (e.g. by the database insert): the handlers respond 400 to a
ZodError and 500 to anything else. -/
inductive ParseOutcome (α : Type) where
  | ok (a : α)
  | zodError
  | thrown
  deriving Repr, DecidableEq

/-- Response of GET /api/videos/:id. -/
structure GetVideoResp where
  status : Nat
  message : Option String
  video : Option VideoWithUser
  deriving Repr, DecidableEq

/-- GET /api/videos/:id: 404 with "Video not found" when the storage lookup
yields nothing, 200 with the video otherwise. -/
def getVideoHandler (db : DB) (id : String) (userId : Option String) : GetVideoResp :=
  match getVideo db id userId with
  | none => { status := 404, message := some "Video not found", video := none }
  | some v => { status := 200, message := none, video := some v }

/-- Response of a JSON create handler: status and message only. -/
structure CreateResp where
  status : Nat
  message : Option String
  deriving Repr, DecidableEq

/-- POST /api/videos (JSON body variant): parse the body with
insertVideoSchema, insert, 201; a ZodError responds 400 "Invalid video
data", any other throw responds 500 "Failed to create video". -/
def createVideoJsonHandler (db : DB) (parsed : ParseOutcome Video) : CreateResp × DB :=
  match parsed with
  | ParseOutcome.ok v => ({ status := 201, message := none }, createVideo db v)
  | ParseOutcome.zodError => ({ status := 400, message := some "Invalid video data" }, db)
  | ParseOutcome.thrown => ({ status := 500, message := some "Failed to create video" }, db)

/-- POST /api/videos/:id/comments: parse the body with insertCommentSchema,
insert (also bumping the video's commentCount), 201; a ZodError responds 400
"Invalid comment data", any other throw responds 500. -/
def createCommentJsonHandler (db : DB) (parsed : ParseOutcome Comment) : CreateResp × DB :=
  match parsed with
  | ParseOutcome.ok c => ({ status := 201, message := none }, createComment db c)
  | ParseOutcome.zodError => ({ status := 400, message := some "Invalid comment data" }, db)
  | ParseOutcome.thrown => ({ status := 500, message := some "Failed to create comment" }, db)

/-- Response of the like toggle. -/
structure LikeResp where
  status : Nat
  liked : Option Bool
  deriving Repr, DecidableEq

/-- POST /api/videos/:id/like: if a like row for (user, video) exists remove
it and respond liked:false, otherwise insert one and respond liked:true. -/
def likeToggleHandler (db : DB) (userId videoId : String) : LikeResp × DB :=
  if isVideoLiked db userId videoId then
    ({ status := 200, liked := some false }, unlikeVideo db userId videoId)
  else
    ({ status := 200, liked := some true }, likeVideo db userId videoId)

/-- Response of the follow toggle. -/
structure FollowResp where
  status : Nat
  message : Option String
  following : Option Bool
  deriving Repr, DecidableEq

/-- POST /api/users/:id/follow: reject a self-follow with 400 "Cannot follow
yourself" before touching storage; otherwise toggle the follow row. -/
def followToggleHandler (db : DB) (followerId id : String) : FollowResp × DB :=
  if followerId == id then
    ({ status := 400, message := some "Cannot follow yourself", following := none }, db)
  else if isFollowing db followerId id then
    ({ status := 200, message := none, following := some false },
     unfollowUser db followerId id)
  else
    ({ status := 200, message := none, following := some true },
     followUser db followerId id)

/-- POST /api/videos/:id/view: unconditionally increment the view counter. -/
def viewHandler (db : DB) (videoId : String) : Nat × DB :=
  (200, incrementViewCount db videoId)

/-- DynamoDBService.deleteComment (the DynamoDB service concatenated into
server/s3.ts): sends a DeleteCommand on the comments table with partition key
id = commentId, removing the comment row with that id.  On the list model
this is filtering out the rows whose id matches. -/
def DynamoDBService.deleteComment (db : DB) (commentId : String) : DB :=
  { db with comments := db.comments.filter (fun c => !(c.id == commentId)) }

/-- DELETE /api/comments/:commentId: delete the comment, respond 200. -/
def commentDeleteHandler (db : DB) (commentId : String) : Nat × DB :=
  (200, DynamoDBService.deleteComment db commentId)

/-! ### POST /api/videos, multipart upload, no-auth variant
(the handler at the end of server/routes.ts that runs VideoValidator) -/

/-- The parts of the multipart request the handler reads. -/
structure UploadReq where
  file : Option VideoFile
  videoUrl : Option String
  title : Option String
  isPublicFlag : Bool
  deriving Repr, DecidableEq

/-- Environment of one upload request: the validation environment, whether
S3 is configured, the S3 upload outcome (url and key; an error models a
throw), the outcome of insertVideoSchema.parse and the subsequent insert,
and the fresh row id and timestamp the insert would assign. -/
structure UploadEnv where
  venv : ValidationEnv
  s3Configured : Bool
  s3Result : Except String (String × String)
  bodyOutcome : ParseOutcome Unit
  newId : String
  now : Nat
  deriving Repr, DecidableEq

/-- Response of the upload handler. -/
structure UploadResp where
  status : Nat
  message : Option String
  deriving Repr, DecidableEq

/-- The Video row the upload handler assembles and inserts. -/
def mkUploadedVideo (env : UploadEnv) (req : UploadReq)
    (vres : Option ValidationResult) (url : String) (s3Key : Option String) : Video :=
  { id := env.newId
    userId := "anonymous"
    title := req.title.getD "Untitled Video"
    description := ""
    videoUrl := url
    s3Key := s3Key
    duration := match vres with | some r => r.duration | none => none
    viewCount := 0
    likeCount := 0
    commentCount := 0
    isPublic := req.isPublicFlag
    createdAt := env.now }

/-- POST /api/videos (no-auth variant): with a file, run
VideoValidator.validateVideo and respond 400 on an invalid result; then
require S3 (else 400), upload (a throw responds 500), parse and insert
(ZodError 400, other throw 500, success 201).  Without a file, a provided
videoUrl skips validation entirely; neither yields 400.  The third component
records which AI calls the validator made. -/
def uploadHandler (env : UploadEnv) (req : UploadReq) (db : DB) :
    UploadResp × DB × ValidationTrace :=
  match req.file with
  | some f =>
      let vr := VideoValidator.validateVideo env.venv f
      if !vr.1.isValid then
        ({ status := 400, message := some "Video validation failed" }, db, vr.2)
      else if env.s3Configured then
        match env.s3Result with
        | Except.error _ =>
            ({ status := 500, message := some "Failed to create video" }, db, vr.2)
        | Except.ok (url, key) =>
            match env.bodyOutcome with
            | ParseOutcome.zodError =>
                ({ status := 400, message := some "Invalid video data" }, db, vr.2)
            | ParseOutcome.thrown =>
                ({ status := 500, message := some "Failed to create video" }, db, vr.2)
            | ParseOutcome.ok _ =>
                ({ status := 201, message := none },
                 createVideo db (mkUploadedVideo env req (some vr.1) url (some key)),
                 vr.2)
      else
        ({ status := 400,
           message := some "S3 is not configured. Please provide a video URL instead or configure AWS credentials." },
         db, vr.2)
  | none =>
      match req.videoUrl with
      | some url =>
          (match env.bodyOutcome with
           | ParseOutcome.zodError =>
               ({ status := 400, message := some "Invalid video data" }, db,
                { transcribeCalled := false, classifyCalled := false })
           | ParseOutcome.thrown =>
               ({ status := 500, message := some "Failed to create video" }, db,
                { transcribeCalled := false, classifyCalled := false })
           | ParseOutcome.ok _ =>
               ({ status := 201, message := none },
                createVideo db (mkUploadedVideo env req none url none),
                { transcribeCalled := false, classifyCalled := false }))
      | none =>
          ({ status := 400, message := some "No video file or URL provided" }, db,
           { transcribeCalled := false, classifyCalled := false })

/-! ### POST /api/videos, multipart upload, DynamoDB variant
(the handler that runs VideoValidationService) -/

/-- Environment of one variant upload request. -/
structure VariantUploadEnv where
  probeResult : Except String Nat
  s3Result : Except String (String × String)
  newId : String
  now : Nat
  deriving Repr, DecidableEq

/-- The Video row the variant upload handler inserts. -/
def mkVariantVideo (env : VariantUploadEnv) (req : UploadReq)
    (duration : Option Nat) (url : String) (s3Key : Option String) : Video :=
  { id := env.newId
    userId := "anonymous"
    title := req.title.getD "Untitled Video"
    description := ""
    videoUrl := url
    s3Key := s3Key
    duration := some (duration.getD 0)
    viewCount := 0
    likeCount := 0
    commentCount := 0
    isPublic := req.isPublicFlag
    createdAt := env.now }

/-- POST /api/videos (DynamoDB variant): no file responds 400; then the
three VideoValidationService checks each respond 400 on failure (size, mime
type, duration, in that order); an S3 failure responds 500; otherwise the
record is inserted and the handler responds 201. -/
def variantUploadHandler (env : VariantUploadEnv) (req : UploadReq) (db : DB) :
    UploadResp × DB :=
  match req.file with
  | none => ({ status := 400, message := some "No video file provided" }, db)
  | some f =>
      let sizeV := VideoValidationService.validateFileSize f.size
      if !sizeV.isValid then
        ({ status := 400, message := sizeV.error }, db)
      else
        let typeV := VideoValidationService.validateMimeType f.mimetype
        if !typeV.isValid then
          ({ status := 400, message := typeV.error }, db)
        else
          let durV := VideoValidationService.validateVideoDuration env.probeResult
          if !durV.isValid then
            ({ status := 400, message := durV.error }, db)
          else
            match env.s3Result with
            | Except.error _ =>
                ({ status := 500, message := some "Failed to upload video to S3" }, db)
            | Except.ok (url, key) =>
                ({ status := 201, message := none },
                 createVideo db (mkVariantVideo env req durV.duration url (some key)))

/-! ## Helper lemmas -/

/-- A successful DeepgramService.transcribeVideo call returns the raw
transcript, and that transcript is not blank (the wrapper throws on a blank
one). -/
lemma transcribeVideo_ok_eq {o : DeepgramOutcome} {t : String}
    (h : DeepgramService.transcribeVideo o = Except.ok t) :
    t = o.transcript ∧ isBlank o.transcript = false := by
  cases hc : o.configured <;> simp [DeepgramService.transcribeVideo, hc] at h
  cases ha : o.apiError <;> simp [ha] at h
  cases ht : isBlank o.transcript <;> rw [ht] at h <;> simp at h
  exact ⟨h.symm, rfl⟩

/-! ## C1 -/

/-- C1: VideoValidator.validateVideo proceeds in order with
short-circuiting: an oversize file or an over-60-second duration yields an
invalid result with neither AI call made; transcription runs only when the
size and duration checks both passed; a blank (no-speech) transcript yields
an invalid result without the classification call; classification runs only
on a non-blank transcript, and a not-educational verdict yields an invalid
result. -/
theorem upload_pipeline_order_and_short_circuit (env : ValidationEnv) (f : VideoFile) :
    (f.size > VideoValidator.MAX_FILE_SIZE_BYTES →
      (VideoValidator.validateVideo env f).1.isValid = false ∧
      (VideoValidator.validateVideo env f).2.transcribeCalled = false ∧
      (VideoValidator.validateVideo env f).2.classifyCalled = false) ∧
    (∀ d, env.probeResult = Except.ok d → d > VideoValidator.MAX_DURATION_SECONDS →
      (VideoValidator.validateVideo env f).1.isValid = false ∧
      (VideoValidator.validateVideo env f).2.transcribeCalled = false ∧
      (VideoValidator.validateVideo env f).2.classifyCalled = false) ∧
    ((VideoValidator.validateVideo env f).2.transcribeCalled = true →
      f.size ≤ VideoValidator.MAX_FILE_SIZE_BYTES ∧
      ∃ d, env.probeResult = Except.ok d ∧ d ≤ VideoValidator.MAX_DURATION_SECONDS) ∧
    ((VideoValidator.validateVideo env f).2.transcribeCalled = true →
      isBlank env.deepgram.transcript = true →
      (VideoValidator.validateVideo env f).1.isValid = false ∧
      (VideoValidator.validateVideo env f).2.classifyCalled = false) ∧
    ((VideoValidator.validateVideo env f).2.classifyCalled = true →
      ∃ t, DeepgramService.transcribeVideo env.deepgram = Except.ok t ∧
        isBlank t = false) ∧
    (∀ a, (VideoValidator.validateVideo env f).2.classifyCalled = true →
      env.geminiResult = Except.ok a → a.is_educational = false →
      (VideoValidator.validateVideo env f).1.isValid = false) := by
  cases hp : env.probeResult with
  | error e =>
      refine ⟨?_, ?_, ?_, ?_, ?_, ?_⟩ <;>
        simp [VideoValidator.validateVideo, hp]
  | ok d =>
      by_cases hsize : f.size > VideoValidator.MAX_FILE_SIZE_BYTES
      · by_cases hdur : d > VideoValidator.MAX_DURATION_SECONDS <;>
          refine ⟨?_, ?_, ?_, ?_, ?_, ?_⟩ <;>
          simp [VideoValidator.validateVideo, hp, hsize, hdur]
      · by_cases hdur : d > VideoValidator.MAX_DURATION_SECONDS
        · refine ⟨?_, ?_, ?_, ?_, ?_, ?_⟩ <;>
            simp [VideoValidator.validateVideo, hp, hsize, hdur]
        · by_cases hcfg : env.deepgramConfigured && env.geminiConfigured
          · cases ht : DeepgramService.transcribeVideo env.deepgram with
            | error e =>
                refine ⟨?_, ?_, ?_, ?_, ?_, ?_⟩ <;>
                  simp [VideoValidator.validateVideo, hp, hsize, hdur, hcfg, ht] <;>
                  first
                  | exact ⟨Nat.le_of_not_lt hsize, Nat.le_of_not_lt hdur⟩
                  | exact Nat.le_of_not_lt hdur
                  | exact Nat.le_of_not_lt hsize
            | ok t =>
                have hne := transcribeVideo_ok_eq ht
                have htr : isBlank t = false := hne.1 ▸ hne.2
                cases hg : env.geminiResult with
                | error ge =>
                    refine ⟨?_, ?_, ?_, ?_, ?_, ?_⟩ <;>
                      simp [VideoValidator.validateVideo, hp, hsize, hdur, hcfg, ht,
                        htr, hne.2, hg] <;>
                      first
                  | exact ⟨Nat.le_of_not_lt hsize, Nat.le_of_not_lt hdur⟩
                  | exact Nat.le_of_not_lt hdur
                  | exact Nat.le_of_not_lt hsize
                | ok a =>
                    by_cases hedu : a.is_educational = true <;>
                      refine ⟨?_, ?_, ?_, ?_, ?_, ?_⟩ <;>
                      simp [VideoValidator.validateVideo, hp, hsize, hdur, hcfg, ht,
                        htr, hne.2, hg, hedu] <;>
                      first
                  | exact ⟨Nat.le_of_not_lt hsize, Nat.le_of_not_lt hdur⟩
                  | exact Nat.le_of_not_lt hdur
                  | exact Nat.le_of_not_lt hsize
          · refine ⟨?_, ?_, ?_, ?_, ?_, ?_⟩ <;>
              simp [VideoValidator.validateVideo, hp, hsize, hdur, hcfg] <;>
              first
              | exact ⟨Nat.le_of_not_lt hsize, Nat.le_of_not_lt hdur⟩
              | exact Nat.le_of_not_lt hdur
              | exact Nat.le_of_not_lt hsize

/-! ## Concrete fixtures used by witnesses and counterexamples -/

/-- A Deepgram outcome with a non-blank transcript. -/
def dgOk : DeepgramOutcome :=
  { configured := true, apiError := none, transcript := "hello world" }

/-- An educational verdict. -/
def gemEdu : EducationalAnalysis :=
  { is_educational := true, reason := none, topic := some "math" }

/-- A fully configured validation environment where every call succeeds. -/
def envAllOk : ValidationEnv :=
  { probeResult := Except.ok 30, deepgramConfigured := true,
    geminiConfigured := true, deepgram := dgOk, geminiResult := Except.ok gemEdu }

/-- The same environment with the Deepgram key missing. -/
def envNoDeepgram : ValidationEnv :=
  { envAllOk with deepgramConfigured := false }

/-- A 5MB video file. -/
def fileSmall : VideoFile :=
  { size := 5 * 1024 * 1024, mimetype := "video/mp4", originalname := "clip.mp4" }

/-- A 20MB video file: over the 10MB limit, under the 50MB one. -/
def fileBig : VideoFile :=
  { size := 20 * 1024 * 1024, mimetype := "video/mp4", originalname := "big.mp4" }

/-- An upload environment where S3 and the body parse succeed. -/
def upEnvOk : UploadEnv :=
  { venv := envAllOk, s3Configured := true,
    s3Result := Except.ok ("https://cdn.example/x.mp4", "videos/anonymous/x.mp4"),
    bodyOutcome := ParseOutcome.ok (), newId := "vid-1", now := 100 }

/-- The same upload environment with Deepgram unconfigured. -/
def upEnvNoDg : UploadEnv :=
  { upEnvOk with venv := envNoDeepgram }

/-- An upload request carrying the small file. -/
def reqSmall : UploadReq :=
  { file := some fileSmall, videoUrl := none, title := none, isPublicFlag := true }

/-- An upload request carrying the big file. -/
def reqBig : UploadReq :=
  { file := some fileBig, videoUrl := none, title := none, isPublicFlag := true }

/-- A variant-handler environment where probing and S3 succeed. -/
def varEnvOk : VariantUploadEnv :=
  { probeResult := Except.ok 30,
    s3Result := Except.ok ("https://cdn.example/y.mp4", "videos/y.mp4"),
    newId := "vid-2", now := 100 }

/-- Witness for the C1 theorem at the 20MB file: the size check fails, the
result is invalid, and neither AI call is made. -/
theorem upload_pipeline_order_witness :
    fileBig.size > VideoValidator.MAX_FILE_SIZE_BYTES ∧
    ((VideoValidator.validateVideo envAllOk fileBig).1.isValid = false ∧
     (VideoValidator.validateVideo envAllOk fileBig).2.transcribeCalled = false ∧
     (VideoValidator.validateVideo envAllOk fileBig).2.classifyCalled = false) :=
  ⟨by decide,
   (upload_pipeline_order_and_short_circuit envAllOk fileBig).1 (by decide)⟩

/-! ## More helper lemmas about the validator -/

/-- An oversize file makes validateVideo return an invalid result. -/
lemma validateVideo_size_invalid (env : ValidationEnv) (f : VideoFile)
    (h : f.size > VideoValidator.MAX_FILE_SIZE_BYTES) :
    (VideoValidator.validateVideo env f).1.isValid = false := by
  cases hp : env.probeResult with
  | error e => simp [VideoValidator.validateVideo, hp, h]
  | ok d =>
      by_cases hdur : d > VideoValidator.MAX_DURATION_SECONDS <;>
        simp [VideoValidator.validateVideo, hp, h, hdur]

/-- An over-60-second duration makes validateVideo return an invalid result. -/
lemma validateVideo_dur_invalid (env : ValidationEnv) (f : VideoFile) (d : Nat)
    (hp : env.probeResult = Except.ok d)
    (hd : d > VideoValidator.MAX_DURATION_SECONDS) :
    (VideoValidator.validateVideo env f).1.isValid = false := by
  by_cases hsize : f.size > VideoValidator.MAX_FILE_SIZE_BYTES <;>
    simp [VideoValidator.validateVideo, hp, hsize, hd]

/-! ## C3 -/

/-- C3 counterexample: the two upload-validation implementations do not
enforce one and the same file-size limit.  A 20MB file passes
VideoValidationService.validateFileSize (the 50MB check) yet exceeds
VideoValidator.MAX_FILE_SIZE_BYTES and is rejected by
VideoValidator.validateVideo. -/
theorem file_size_thresholds_differ :
    (VideoValidationService.validateFileSize (20 * 1024 * 1024)).isValid = true ∧
    20 * 1024 * 1024 > VideoValidator.MAX_FILE_SIZE_BYTES ∧
    (VideoValidator.validateVideo envAllOk fileBig).1.isValid = false ∧
    fileBig.size = 20 * 1024 * 1024 := by
  refine ⟨by decide, by decide, ?_, by decide⟩
  exact validateVideo_size_invalid envAllOk fileBig (by decide)

/-- C3 amended: an upload whose file size exceeds its handler's own fixed
threshold, or whose measured duration exceeds 60 seconds, is rejected with
400 and not persisted — but the two implementations use different size
thresholds: 10MB in VideoValidator (no-auth handler) and 50MB in
VideoValidationService (variant handler). -/
theorem upload_size_duration_rejected (env : UploadEnv) (env2 : VariantUploadEnv)
    (req : UploadReq) (db : DB) (f : VideoFile) (hf : req.file = some f) :
    (f.size > VideoValidator.MAX_FILE_SIZE_BYTES →
      (uploadHandler env req db).1.status = 400 ∧
      (uploadHandler env req db).2.1 = db) ∧
    (∀ d, env.venv.probeResult = Except.ok d → d > 60 →
      (uploadHandler env req db).1.status = 400 ∧
      (uploadHandler env req db).2.1 = db) ∧
    (f.size > 50 * 1024 * 1024 →
      (variantUploadHandler env2 req db).1.status = 400 ∧
      (variantUploadHandler env2 req db).2 = db) ∧
    (∀ d, env2.probeResult = Except.ok d → d > 60 →
      (variantUploadHandler env2 req db).1.status = 400 ∧
      (variantUploadHandler env2 req db).2 = db) := by
  refine ⟨?_, ?_, ?_, ?_⟩
  · intro hsz
    simp [uploadHandler, hf, validateVideo_size_invalid env.venv f hsz]
  · intro d hp hd
    simp [uploadHandler, hf, validateVideo_dur_invalid env.venv f d hp hd]
  · intro hsz
    simp [variantUploadHandler, hf, VideoValidationService.validateFileSize, hsz]
  · intro d hp hd
    by_cases hsz : f.size > 50 * 1024 * 1024
    · simp [variantUploadHandler, hf, VideoValidationService.validateFileSize, hsz]
    · cases htv : (VideoValidationService.validateMimeType f.mimetype).isValid
      · simp [variantUploadHandler, hf, VideoValidationService.validateFileSize, hsz, htv]
      · simp [variantUploadHandler, hf, VideoValidationService.validateFileSize, hsz, htv,
          VideoValidationService.validateVideoDuration, hp, hd,
          (show ¬d = 0 by omega)]

/-- Witness for the amended C3 theorem: the 20MB upload is rejected with 400
by the no-auth handler and the store is unchanged. -/
theorem upload_size_duration_rejected_witness :
    reqBig.file = some fileBig ∧
    fileBig.size > VideoValidator.MAX_FILE_SIZE_BYTES ∧
    ((uploadHandler upEnvOk reqBig DB.empty).1.status = 400 ∧
     (uploadHandler upEnvOk reqBig DB.empty).2.1 = DB.empty) :=
  ⟨rfl, by decide,
   (upload_size_duration_rejected upEnvOk varEnvOk reqBig DB.empty fileBig rfl).1
     (by decide)⟩

/-- A valid validation result arises only from the full pipeline (classify
ran, Gemini said educational) or from the skip-when-unconfigured branch. -/
lemma validateVideo_valid_cases (env : ValidationEnv) (f : VideoFile)
    (h : (VideoValidator.validateVideo env f).1.isValid = true) :
    ((VideoValidator.validateVideo env f).2.classifyCalled = true ∧
      ∃ a, env.geminiResult = Except.ok a ∧ a.is_educational = true) ∨
    env.deepgramConfigured = false ∨ env.geminiConfigured = false := by
  cases hp : env.probeResult with
  | error e => simp [VideoValidator.validateVideo, hp] at h
  | ok d =>
      by_cases hsize : f.size > VideoValidator.MAX_FILE_SIZE_BYTES
      · have := validateVideo_size_invalid env f hsize
        simp [this] at h
      · by_cases hdur : d > VideoValidator.MAX_DURATION_SECONDS
        · have := validateVideo_dur_invalid env f d hp hdur
          simp [this] at h
        · by_cases hcfg : env.deepgramConfigured && env.geminiConfigured
          · cases ht : DeepgramService.transcribeVideo env.deepgram with
            | error e =>
                simp [VideoValidator.validateVideo, hp, hsize, hdur, hcfg, ht] at h
            | ok t =>
                have hne := transcribeVideo_ok_eq ht
                have htr : isBlank t = false := hne.1 ▸ hne.2
                cases hg : env.geminiResult with
                | error ge =>
                    simp [VideoValidator.validateVideo, hp, hsize, hdur, hcfg,
                      ht, htr, hg] at h
                | ok a =>
                    by_cases hedu : a.is_educational = true
                    · left
                      refine ⟨?_, a, rfl, hedu⟩
                      simp [VideoValidator.validateVideo, hp, hsize, hdur, hcfg,
                        ht, htr, hg, hedu]
                    · simp [VideoValidator.validateVideo, hp, hsize, hdur, hcfg,
                        ht, htr, hg, hedu] at h
          · cases hdc : env.deepgramConfigured with
            | false => exact Or.inr (Or.inl rfl)
            | true =>
                cases hgc : env.geminiConfigured with
                | false => exact Or.inr (Or.inr rfl)
                | true =>
                    rw [hdc, hgc] at hcfg
                    exact absurd rfl hcfg

/-- The upload handler's trace is exactly the validator's trace whenever the
request carries a file. -/
lemma uploadHandler_trace (env : UploadEnv) (req : UploadReq) (db : DB)
    (f : VideoFile) (hf : req.file = some f) :
    (uploadHandler env req db).2.2 = (VideoValidator.validateVideo env.venv f).2 := by
  simp only [uploadHandler, hf]
  split
  · rfl
  · split
    · split
      · rfl
      · split <;> rfl
    · rfl

/-- If the transcription wrapper threw and the validator did reach the
transcription step, the validation result is invalid. -/
lemma validateVideo_transcribe_error_invalid (env : ValidationEnv) (f : VideoFile)
    (e : String) (ht : DeepgramService.transcribeVideo env.deepgram = Except.error e)
    (hcalled : (VideoValidator.validateVideo env f).2.transcribeCalled = true) :
    (VideoValidator.validateVideo env f).1.isValid = false := by
  cases hp : env.probeResult with
  | error e' => simp [VideoValidator.validateVideo, hp] at hcalled
  | ok d =>
      by_cases hsize : f.size > VideoValidator.MAX_FILE_SIZE_BYTES
      · exact validateVideo_size_invalid env f hsize
      · by_cases hdur : d > VideoValidator.MAX_DURATION_SECONDS
        · exact validateVideo_dur_invalid env f d hp hdur
        · by_cases hcfg : env.deepgramConfigured && env.geminiConfigured
          · simp [VideoValidator.validateVideo, hp, hsize, hdur, hcfg, ht]
          · simp [VideoValidator.validateVideo, hp, hsize, hdur, hcfg] at hcalled

/-- If the classification call threw and the validator did reach the
classification step, the validation result is invalid. -/
lemma validateVideo_classify_error_invalid (env : ValidationEnv) (f : VideoFile)
    (e : String) (hg : env.geminiResult = Except.error e)
    (hcalled : (VideoValidator.validateVideo env f).2.classifyCalled = true) :
    (VideoValidator.validateVideo env f).1.isValid = false := by
  cases hp : env.probeResult with
  | error e' => simp [VideoValidator.validateVideo, hp] at hcalled
  | ok d =>
      by_cases hsize : f.size > VideoValidator.MAX_FILE_SIZE_BYTES
      · exact validateVideo_size_invalid env f hsize
      · by_cases hdur : d > VideoValidator.MAX_DURATION_SECONDS
        · exact validateVideo_dur_invalid env f d hp hdur
        · by_cases hcfg : env.deepgramConfigured && env.geminiConfigured
          · cases ht : DeepgramService.transcribeVideo env.deepgram with
            | error e' =>
                simp [VideoValidator.validateVideo, hp, hsize, hdur, hcfg, ht]
            | ok t =>
                have hne := transcribeVideo_ok_eq ht
                have htr : isBlank t = false := hne.1 ▸ hne.2
                simp [VideoValidator.validateVideo, hp, hsize, hdur, hcfg, ht, htr, hg]
          · simp [VideoValidator.validateVideo, hp, hsize, hdur, hcfg] at hcalled

/-! ## C2 -/

/-- C2 counterexample: with the AI services unconfigured, a small file
upload is persisted with HTTP 201 although the classification step never
ran (and neither did transcription). -/
theorem upload_persisted_without_classification :
    (uploadHandler upEnvNoDg reqSmall DB.empty).1.status = 201 ∧
    (uploadHandler upEnvNoDg reqSmall DB.empty).2.1.videos.length = 1 ∧
    (uploadHandler upEnvNoDg reqSmall DB.empty).2.2.classifyCalled = false ∧
    (uploadHandler upEnvNoDg reqSmall DB.empty).2.2.transcribeCalled = false := by
  decide

/-- C2 amended: a file upload is persisted with 201 only if either the
classification step ran on the transcript and returned is_educational =
true, or the transcription/classification services were not configured (in
which case the AI validation is skipped entirely); moreover a non-201
response leaves the store unchanged. -/
theorem upload_persist_requires_classification_or_unconfigured
    (env : UploadEnv) (req : UploadReq) (db : DB) (f : VideoFile)
    (hf : req.file = some f) :
    ((uploadHandler env req db).1.status = 201 →
      ((uploadHandler env req db).2.2.classifyCalled = true ∧
        ∃ a, env.venv.geminiResult = Except.ok a ∧ a.is_educational = true) ∨
      env.venv.deepgramConfigured = false ∨ env.venv.geminiConfigured = false) ∧
    ((uploadHandler env req db).1.status ≠ 201 →
      (uploadHandler env req db).2.1 = db) := by
  constructor
  · intro h201
    cases hv : (VideoValidator.validateVideo env.venv f).1.isValid with
    | false => simp [uploadHandler, hf, hv] at h201
    | true =>
        have htr := uploadHandler_trace env req db f hf
        rcases validateVideo_valid_cases env.venv f hv with ⟨hc, a, hg, he⟩ | hunc
        · exact Or.inl ⟨htr ▸ hc, a, hg, he⟩
        · exact Or.inr hunc
  · intro hne
    cases hv : (VideoValidator.validateVideo env.venv f).1.isValid with
    | false => simp [uploadHandler, hf, hv]
    | true =>
        by_cases hs3 : env.s3Configured
        · cases hsr : env.s3Result with
          | error e => simp [uploadHandler, hf, hv, hs3, hsr]
          | ok p =>
              obtain ⟨url, key⟩ := p
              cases hb : env.bodyOutcome with
              | ok u =>
                  exfalso
                  exact hne (by simp [uploadHandler, hf, hv, hs3, hsr, hb])
              | zodError => simp [uploadHandler, hf, hv, hs3, hsr, hb]
              | thrown => simp [uploadHandler, hf, hv, hs3, hsr, hb]
        · simp [uploadHandler, hf, hv, hs3]

/-- Witness for the amended C2 theorem: a fully configured, fully passing
upload is persisted and the classification did run and return educational. -/
theorem upload_persist_classified_witness :
    (uploadHandler upEnvOk reqSmall DB.empty).1.status = 201 ∧
    (((uploadHandler upEnvOk reqSmall DB.empty).2.2.classifyCalled = true ∧
        ∃ a, upEnvOk.venv.geminiResult = Except.ok a ∧ a.is_educational = true) ∨
      upEnvOk.venv.deepgramConfigured = false ∨
      upEnvOk.venv.geminiConfigured = false) :=
  ⟨by decide,
   (upload_persist_requires_classification_or_unconfigured upEnvOk reqSmall
      DB.empty fileSmall rfl).1 (by decide)⟩

/-! ## C4 -/

/-- C4: if the transcription call or the classification call throws during
upload validation, the upload request fails with 400 and the video store is
unchanged. -/
theorem upload_ai_throw_fails_request_atomically
    (env : UploadEnv) (req : UploadReq) (db : DB) (f : VideoFile)
    (hf : req.file = some f) :
    (∀ e, DeepgramService.transcribeVideo env.venv.deepgram = Except.error e →
      (uploadHandler env req db).2.2.transcribeCalled = true →
      (uploadHandler env req db).1.status = 400 ∧
      (uploadHandler env req db).2.1 = db) ∧
    (∀ e, env.venv.geminiResult = Except.error e →
      (uploadHandler env req db).2.2.classifyCalled = true →
      (uploadHandler env req db).1.status = 400 ∧
      (uploadHandler env req db).2.1 = db) := by
  have htrace := uploadHandler_trace env req db f hf
  constructor
  · intro e he hcalled
    have hinv := validateVideo_transcribe_error_invalid env.venv f e he
      (htrace ▸ hcalled)
    simp [uploadHandler, hf, hinv]
  · intro e he hcalled
    have hinv := validateVideo_classify_error_invalid env.venv f e he
      (htrace ▸ hcalled)
    simp [uploadHandler, hf, hinv]

/-- A validation environment in which the Deepgram API reports an error, so
the transcription wrapper throws. -/
def envDgFail : ValidationEnv :=
  { envAllOk with
    deepgram := { configured := true, apiError := some "boom", transcript := "hello" } }

/-- The upload environment built on the failing transcription. -/
def upEnvDgFail : UploadEnv :=
  { upEnvOk with venv := envDgFail }

/-- Witness for C4: the upload whose transcription call throws responds 400
and leaves the store unchanged. -/
theorem upload_ai_throw_witness :
    (uploadHandler upEnvDgFail reqSmall DB.empty).1.status = 400 ∧
    (uploadHandler upEnvDgFail reqSmall DB.empty).2.1 = DB.empty :=
  (upload_ai_throw_fails_request_atomically upEnvDgFail reqSmall DB.empty
      fileSmall rfl).1 "Failed to transcribe video" (by decide) (by decide)

/-! ## C5 -/

/-- attachUser keeps the video it was given. -/
lemma attachUser_video {db : DB} {uid : Option String} {v : Video}
    {vw : VideoWithUser} (h : attachUser db uid v = some vw) : vw.video = v := by
  unfold attachUser at h
  cases hfu : findUser db v.userId with
  | none => rw [hfu] at h; cases h
  | some u => rw [hfu] at h; cases h; rfl

/-- Members of the feed window are public videos. -/
lemma feedWindow_mem_public {db : DB} {limit offset : Nat} {v : Video}
    (h : v ∈ feedWindow db limit offset) : v.isPublic = true := by
  have h1 : v ∈ publicSorted db :=
    List.mem_of_mem_drop (List.mem_of_mem_take h)
  have h2 : v ∈ db.videos.filter (fun v => v.isPublic) :=
    (List.perm_insertionSort videoDesc _).mem_iff.mp h1
  simpa using (List.mem_filter.mp h2).2

/-- The feed window is sorted newest-first. -/
lemma feedWindow_sorted (db : DB) (limit offset : Nat) :
    List.Pairwise videoDesc (feedWindow db limit offset) := by
  have hs : List.Pairwise videoDesc (publicSorted db) :=
    List.sorted_insertionSort videoDesc _
  exact List.Pairwise.sublist
    ((List.take_sublist _ _).trans (List.drop_sublist _ _)) hs

/-- C5: getVideos returns only videos whose isPublic flag is true, in
creation-time-descending order, and at most `limit` of them, all drawn from
rows offset..offset+limit of the public-by-createdAt-desc ordering. -/
theorem feed_public_sorted_paged (db : DB) (uid : Option String)
    (limit offset : Nat) :
    (∀ vw ∈ getVideos db uid limit offset,
      vw.video.isPublic = true ∧ vw.video ∈ feedWindow db limit offset) ∧
    List.Pairwise (fun a b : VideoWithUser => b.video.createdAt ≤ a.video.createdAt)
      (getVideos db uid limit offset) ∧
    (getVideos db uid limit offset).length ≤ limit := by
  refine ⟨?_, ?_, ?_⟩
  · intro vw hvw
    obtain ⟨v, hv, hat⟩ := List.mem_filterMap.mp hvw
    have hveq := attachUser_video hat
    exact ⟨hveq ▸ feedWindow_mem_public hv, hveq ▸ hv⟩
  · refine List.Pairwise.filterMap (attachUser db uid) ?_
      (feedWindow_sorted db limit offset)
    intro a a' hr b hb b' hb'
    have h1 := attachUser_video hb
    have h2 := attachUser_video hb'
    rw [h1, h2]
    exact hr
  · calc (getVideos db uid limit offset).length
        ≤ (feedWindow db limit offset).length :=
          List.length_filterMap_le _ _
      _ ≤ limit := by
          unfold feedWindow
          exact List.length_take_le _ _

/-- A user and their public video, for concrete witnesses. -/
def user1 : User :=
  { id := "u1", email := none, username := some "alice" }

/-- A public video owned by user1. -/
def video1 : Video :=
  { id := "v1", userId := "u1", title := "t", description := "", videoUrl := "u",
    s3Key := none, duration := some 30, viewCount := 0, likeCount := 0,
    commentCount := 0, isPublic := true, createdAt := 10 }

/-- A store holding user1 and video1. -/
def db1 : DB :=
  { users := [user1], videos := [video1], likes := [], comments := [],
    follows := [] }

/-- The joined row getVideos yields for video1 in db1. -/
def vw1 : VideoWithUser :=
  { video := video1, user := user1, likes := [], comments := [], isLiked := false }

/-- Witness for C5: in the concrete store, the single returned feed row is
public and lies in the feed window. -/
theorem feed_public_sorted_paged_witness :
    vw1 ∈ getVideos db1 none 10 0 ∧
    (vw1.video.isPublic = true ∧ vw1.video ∈ feedWindow db1 10 0) :=
  ⟨by decide, (feed_public_sorted_paged db1 none 10 0).1 vw1 (by decide)⟩

/-! ## C6 -/

/-- At most one Like row per (user id, video id) pair: pairwise, no two rows
share both ids. -/
def likeInvariant (db : DB) : Prop :=
  db.likes.Pairwise (fun a b => ¬(a.userId = b.userId ∧ a.videoId = b.videoId))

/-- One like-toggle step preserves the at-most-one-like invariant. -/
lemma likeToggle_preserves (db : DB) (u v : String) (h : likeInvariant db) :
    likeInvariant (likeToggleHandler db u v).2 := by
  by_cases hl : isVideoLiked db u v = true
  · simp only [likeToggleHandler, hl, if_true]
    exact List.Pairwise.sublist (List.filter_sublist _) h
  · simp only [likeToggleHandler, hl, if_false, Bool.false_eq_true]
    unfold likeInvariant likeVideo at *
    simp only []
    rw [List.pairwise_append]
    refine ⟨h, List.pairwise_singleton _ _, ?_⟩
    intro a ha b hb
    simp only [List.mem_singleton] at hb
    subst hb
    rintro ⟨h1, h2⟩
    exact hl (List.any_eq_true.mpr ⟨a, ha, by simp [h1, h2]⟩)

/-- After unliking, no like row for the pair remains. -/
lemma isVideoLiked_after_unlike (db : DB) (u v : String) :
    isVideoLiked (unlikeVideo db u v) u v = false := by
  unfold isVideoLiked unlikeVideo
  rw [Bool.eq_false_iff]
  intro hx
  rw [List.any_eq_true] at hx
  obtain ⟨l, hl, hp⟩ := hx
  rw [List.mem_filter] at hl
  rw [hp] at hl
  exact absurd hl.2 (by simp)

/-- C6: the like relation holds at most one Like per (user, video) pair and
the POST /api/videos/:id/like toggle preserves this in every reachable
state: an existing like is removed (responding liked:false, leaving no row
for the pair), a missing one is inserted exactly once (responding
liked:true), and any sequence of toggles from an invariant-satisfying state
keeps the invariant. -/
theorem like_toggle_unique_pair (db : DB) (u v : String) (hinv : likeInvariant db) :
    likeInvariant (likeToggleHandler db u v).2 ∧
    (isVideoLiked db u v = true →
      (likeToggleHandler db u v).1.liked = some false ∧
      isVideoLiked (likeToggleHandler db u v).2 u v = false) ∧
    (isVideoLiked db u v = false →
      (likeToggleHandler db u v).1.liked = some true ∧
      ((likeToggleHandler db u v).2.likes.filter
        (fun l => l.userId == u && l.videoId == v)).length = 1) ∧
    ∀ ops : List (String × String),
      likeInvariant (ops.foldl (fun s p => (likeToggleHandler s p.1 p.2).2) db) := by
  refine ⟨likeToggle_preserves db u v hinv, ?_, ?_, ?_⟩
  · intro hl
    constructor
    · simp [likeToggleHandler, hl]
    · simp only [likeToggleHandler, hl, if_true]
      exact isVideoLiked_after_unlike db u v
  · intro hl
    constructor
    · simp [likeToggleHandler, hl]
    · simp only [likeToggleHandler, hl, Bool.false_eq_true, if_false]
      unfold likeVideo
      simp only [List.filter_append]
      have hnil : db.likes.filter (fun l => l.userId == u && l.videoId == v) = [] := by
        rw [List.filter_eq_nil_iff]
        intro a ha hp
        rw [isVideoLiked, List.any_eq_false] at hl
        exact absurd hp (by simpa using hl a ha)
      simp [hnil]
  · intro ops
    induction ops generalizing db with
    | nil => exact hinv
    | cons p rest ih =>
        exact ih _ (likeToggle_preserves db p.1 p.2 hinv)

/-- A store with one like row, for the C6 witness. -/
def dbLike : DB :=
  { db1 with likes := [{ userId := "u1", videoId := "v1" }] }

/-- Witness for C6: toggling an existing like removes it and responds
liked:false. -/
theorem like_toggle_unique_pair_witness :
    isVideoLiked dbLike "u1" "v1" = true ∧
    ((likeToggleHandler dbLike "u1" "v1").1.liked = some false ∧
     isVideoLiked (likeToggleHandler dbLike "u1" "v1").2 "u1" "v1" = false) :=
  ⟨by decide,
   (like_toggle_unique_pair dbLike "u1" "v1"
      (by simp [likeInvariant, dbLike, db1])).2.1 (by decide)⟩

/-! ## C9 -/

/-- No follow row is a self-follow. -/
def noSelfFollow (db : DB) : Prop :=
  ∀ f ∈ db.follows, f.followerId ≠ f.followingId

/-- C9: a follow request whose follower equals the target responds 400 with
"Cannot follow yourself" and leaves the store untouched; and the handler
never introduces a self-follow row into a store that has none. -/
theorem self_follow_rejected (db : DB) (u : String) :
    (followToggleHandler db u u).1.status = 400 ∧
    (followToggleHandler db u u).1.message = some "Cannot follow yourself" ∧
    (followToggleHandler db u u).2 = db ∧
    ∀ t, noSelfFollow db → noSelfFollow (followToggleHandler db u t).2 := by
  refine ⟨by simp [followToggleHandler], by simp [followToggleHandler],
    by simp [followToggleHandler], ?_⟩
  intro t hns
  by_cases ht : u == t
  · simpa [followToggleHandler, ht] using hns
  · by_cases hif : isFollowing db u t = true
    · simp only [followToggleHandler, ht, Bool.false_eq_true, if_false, hif, if_true]
      intro f hf
      exact hns f (List.mem_of_mem_filter hf)
    · simp only [followToggleHandler, ht, Bool.false_eq_true, if_false, hif]
      intro f hf
      rcases List.mem_append.mp hf with hmem | hmem
      · exact hns f hmem
      · simp only [List.mem_singleton] at hmem
        subst hmem
        intro he
        simp only at he
        exact ht (by simp [he])

/-- Witness for C9: on the empty store, the self-follow is rejected with 400
and a distinct-target toggle keeps the no-self-follow invariant. -/
theorem self_follow_rejected_witness :
    (followToggleHandler DB.empty "u1" "u1").1.status = 400 ∧
    noSelfFollow (followToggleHandler DB.empty "u1" "u2").2 :=
  ⟨(self_follow_rejected DB.empty "u1").1,
   (self_follow_rejected DB.empty "u1").2.2.2 "u2"
     (by simp [noSelfFollow, DB.empty])⟩

/-! ## C10 -/

/-- attachUser succeeds only when the owner user row exists. -/
lemma attachUser_isSome {db : DB} {uid : Option String} {v : Video}
    {vw : VideoWithUser} (h : attachUser db uid v = some vw) :
    (findUser db v.userId).isSome := by
  unfold attachUser at h
  cases hfu : findUser db v.userId with
  | none => rw [hfu] at h; cases h
  | some u => simp

/-- A store holding a public video whose owner user row is missing. -/
def dbOrphan : DB :=
  { users := [], videos := [video1], likes := [], comments := [], follows := [] }

/-- C10: the read paths silently drop rows whose joined owner user is
missing: a feed-window video with no user row never appears in getVideos
output (so a page can hold fewer than limit rows even though enough public
videos exist, as the closed instance shows), every returned feed row has an
existing owner, getVideo yields nothing for a video whose owner row is
missing, and every returned comment has an existing author. -/
theorem reads_drop_orphan_rows (db : DB) (uid : Option String)
    (limit offset : Nat) (id vid : String) :
    (∀ vw ∈ getVideos db uid limit offset,
      (findUser db vw.video.userId).isSome) ∧
    (∀ v ∈ feedWindow db limit offset, findUser db v.userId = none →
      ∀ vw ∈ getVideos db uid limit offset, vw.video ≠ v) ∧
    (∀ v, db.videos.find? (fun x => x.id == id) = some v →
      findUser db v.userId = none → getVideo db id uid = none) ∧
    (∀ cw ∈ getComments db vid limit offset,
      (findUser db cw.comment.userId).isSome) ∧
    (∃ dbx : DB, 1 ≤ (dbx.videos.filter (fun v => v.isPublic)).length ∧
      (getVideos dbx none 1 0).length < 1) := by
  refine ⟨?_, ?_, ?_, ?_, ?_⟩
  · intro vw hvw
    obtain ⟨v, _, hat⟩ := List.mem_filterMap.mp hvw
    have hveq := attachUser_video hat
    exact hveq ▸ attachUser_isSome hat
  · intro v _ hnone vw hvw heq
    obtain ⟨v', _, hat⟩ := List.mem_filterMap.mp hvw
    have hveq := attachUser_video hat
    have hsome := attachUser_isSome hat
    rw [hveq] at heq
    rw [heq, hnone] at hsome
    cases hsome
  · intro v hfind hnone
    simp [getVideo, attachUser, hfind, hnone]
  · intro cw hcw
    obtain ⟨c, _, hat⟩ := List.mem_filterMap.mp hcw
    cases hfu : findUser db c.userId with
    | none => rw [hfu] at hat; cases hat
    | some u =>
        rw [hfu] at hat
        cases hat
        simp [hfu]
  · exact ⟨dbOrphan, by decide, by decide⟩

/-- Witness for C10: the single feed row of the concrete store has an
existing owner user. -/
theorem reads_drop_orphan_rows_witness :
    vw1 ∈ getVideos db1 none 10 0 ∧
    (findUser db1 vw1.video.userId).isSome :=
  ⟨by decide,
   (reads_drop_orphan_rows db1 none 10 0 "v1" "v1").1 vw1 (by decide)⟩

/-! ## C7 -/

/-- C7 counterexample: GET /api/videos/:id responds 404 on a store that does
contain a video with the requested id — the video's owner user row is
missing, so the left-join lookup returns nothing. -/
theorem get_video_404_despite_existing_video :
    (getVideoHandler dbOrphan "v1" none).status = 404 ∧
    dbOrphan.videos.any (fun v => v.id == "v1") = true := by
  decide

/-- C7 amended: GET /api/videos/:id responds 404 exactly when the storage
lookup yields nothing — that is, when no video with the id exists or when
the video's owner user row is missing — and 200 exactly when it yields a
row; Zod parse failures on video and comment creation respond 400 leaving
the store unchanged, any other handler failure responds 500 leaving the
store unchanged, and a 201 occurs only for a successfully parsed body. -/
theorem error_status_mapping (db : DB) (id : String) (uid : Option String)
    (pv : ParseOutcome Video) (pc : ParseOutcome Comment) :
    ((getVideoHandler db id uid).status = 404 ↔ getVideo db id uid = none) ∧
    ((getVideoHandler db id uid).status = 200 ↔ (getVideo db id uid).isSome) ∧
    (pv = ParseOutcome.zodError →
      (createVideoJsonHandler db pv).1.status = 400 ∧
      (createVideoJsonHandler db pv).2 = db) ∧
    (pv = ParseOutcome.thrown →
      (createVideoJsonHandler db pv).1.status = 500 ∧
      (createVideoJsonHandler db pv).2 = db) ∧
    (pc = ParseOutcome.zodError →
      (createCommentJsonHandler db pc).1.status = 400 ∧
      (createCommentJsonHandler db pc).2 = db) ∧
    (pc = ParseOutcome.thrown →
      (createCommentJsonHandler db pc).1.status = 500 ∧
      (createCommentJsonHandler db pc).2 = db) ∧
    ((createVideoJsonHandler db pv).1.status = 201 →
      ∃ v, pv = ParseOutcome.ok v) := by
  refine ⟨?_, ?_, ?_, ?_, ?_, ?_, ?_⟩
  · cases hv : getVideo db id uid <;> simp [getVideoHandler, hv]
  · cases hv : getVideo db id uid <;> simp [getVideoHandler, hv]
  · intro h; subst h; exact ⟨rfl, rfl⟩
  · intro h; subst h; exact ⟨rfl, rfl⟩
  · intro h; subst h; exact ⟨rfl, rfl⟩
  · intro h; subst h; exact ⟨rfl, rfl⟩
  · intro h
    cases pv with
    | ok v => exact ⟨v, rfl⟩
    | zodError => simp [createVideoJsonHandler] at h
    | thrown => simp [createVideoJsonHandler] at h

/-- Witness for the amended C7 theorem: a Zod failure on video creation
responds 400 and leaves the empty store unchanged. -/
theorem error_status_mapping_witness :
    (createVideoJsonHandler DB.empty ParseOutcome.zodError).1.status = 400 ∧
    (createVideoJsonHandler DB.empty ParseOutcome.zodError).2 = DB.empty :=
  (error_status_mapping DB.empty "v1" none ParseOutcome.zodError
      ParseOutcome.zodError).2.2.1 rfl

/-! ## C8 -/

/-- C8 counterexample: the like toggle deletes an existing Like record, so
it is not the case that every entity record present before a request is
still present after it. -/
theorem like_row_deleted_by_toggle :
    ({ userId := "u1", videoId := "v1" } : Like) ∈ dbLike.likes ∧
    ({ userId := "u1", videoId := "v1" } : Like) ∉
      (likeToggleHandler dbLike "u1" "v1").2.likes := by
  decide

/-- The upload handler either leaves the store unchanged or appends one
video row. -/
lemma uploadHandler_db_cases (env : UploadEnv) (req : UploadReq) (db : DB) :
    (uploadHandler env req db).2.1 = db ∨
    ∃ v, (uploadHandler env req db).2.1 = createVideo db v := by
  rcases hf : req.file with _ | f
  · rcases hu : req.videoUrl with _ | url
    · simp [uploadHandler, hf, hu]
    · cases hb : env.bodyOutcome <;>
        simp [uploadHandler, hf, hu, hb]
  · cases hv : (VideoValidator.validateVideo env.venv f).1.isValid
    · simp [uploadHandler, hf, hv]
    · by_cases hs3 : env.s3Configured
      · cases hsr : env.s3Result with
        | error e => simp [uploadHandler, hf, hv, hs3, hsr]
        | ok p =>
            obtain ⟨url, key⟩ := p
            cases hb : env.bodyOutcome <;>
              simp [uploadHandler, hf, hv, hs3, hsr, hb]
      · simp [uploadHandler, hf, hv, hs3]

/-- The variant upload handler either leaves the store unchanged or appends
one video row. -/
lemma variantUploadHandler_db_cases (env2 : VariantUploadEnv) (req : UploadReq)
    (db : DB) :
    (variantUploadHandler env2 req db).2 = db ∨
    ∃ v, (variantUploadHandler env2 req db).2 = createVideo db v := by
  rcases hf : req.file with _ | f
  · simp [variantUploadHandler, hf]
  · cases hsz : (VideoValidationService.validateFileSize f.size).isValid
    · simp [variantUploadHandler, hf, hsz]
    · cases hm : (VideoValidationService.validateMimeType f.mimetype).isValid
      · simp [variantUploadHandler, hf, hsz, hm]
      · cases hd : (VideoValidationService.validateVideoDuration env2.probeResult).isValid
        · simp [variantUploadHandler, hf, hsz, hm, hd]
        · cases hsr : env2.s3Result with
          | error e => simp [variantUploadHandler, hf, hsz, hm, hd, hsr]
          | ok p =>
              obtain ⟨url, key⟩ := p
              simp [variantUploadHandler, hf, hsz, hm, hd, hsr]

/-- Mapping an id-preserving per-row update preserves the list of ids. -/
lemma map_counter_preserves_ids (l : List Video) (g : Video → Video)
    (hg : ∀ x, (g x).id = x.id) :
    (l.map g).map Video.id = l.map Video.id := by
  rw [List.map_map]
  exact List.map_congr_left (fun x _ => hg x)

/-- C8 amended: no modeled handler ever deletes a User or Video record —
every video present before a request is present after it, and the user
table is never touched — while Like rows are removed only by the like
toggle, Follow rows only by the follow toggle, and Comment rows only by
DELETE /api/comments/:commentId (those three deletions do occur, as the
counterexample shows). -/
theorem users_videos_never_deleted (db : DB) (u v t cid : String)
    (env : UploadEnv) (req : UploadReq) (env2 : VariantUploadEnv)
    (pv : ParseOutcome Video) (pc : ParseOutcome Comment) :
    (∀ x ∈ db.videos, x ∈ (uploadHandler env req db).2.1.videos) ∧
    (∀ x ∈ db.videos, x ∈ (variantUploadHandler env2 req db).2.videos) ∧
    (∀ x ∈ db.videos, x ∈ (createVideoJsonHandler db pv).2.videos) ∧
    (uploadHandler env req db).2.1.users = db.users ∧
    (variantUploadHandler env2 req db).2.users = db.users ∧
    (createVideoJsonHandler db pv).2.users = db.users ∧
    (likeToggleHandler db u v).2.users = db.users ∧
    (likeToggleHandler db u v).2.videos.map Video.id = db.videos.map Video.id ∧
    (followToggleHandler db u t).2.users = db.users ∧
    (followToggleHandler db u t).2.videos = db.videos ∧
    (commentDeleteHandler db cid).2.users = db.users ∧
    (commentDeleteHandler db cid).2.videos = db.videos ∧
    (createCommentJsonHandler db pc).2.users = db.users ∧
    (createCommentJsonHandler db pc).2.videos.map Video.id = db.videos.map Video.id ∧
    (viewHandler db v).2.users = db.users ∧
    (viewHandler db v).2.videos.map Video.id = db.videos.map Video.id := by
  refine ⟨?_, ?_, ?_, ?_, ?_, ?_, ?_, ?_, ?_, ?_, ?_, ?_, ?_, ?_, ?_, ?_⟩
  · intro x hx
    rcases uploadHandler_db_cases env req db with h | ⟨w, h⟩
    · rw [h]; exact hx
    · rw [h]; exact List.mem_append_left _ hx
  · intro x hx
    rcases variantUploadHandler_db_cases env2 req db with h | ⟨w, h⟩
    · rw [h]; exact hx
    · rw [h]; exact List.mem_append_left _ hx
  · intro x hx
    cases pv with
    | ok v2 =>
        simp [createVideoJsonHandler, createVideo]
        exact Or.inl hx
    | zodError => exact hx
    | thrown => exact hx
  · rcases uploadHandler_db_cases env req db with h | ⟨w, h⟩ <;>
      rw [h] <;> rfl
  · rcases variantUploadHandler_db_cases env2 req db with h | ⟨w, h⟩ <;>
      rw [h] <;> rfl
  · cases pv <;> rfl
  · by_cases hl : isVideoLiked db u v = true <;>
      simp [likeToggleHandler, hl, likeVideo, unlikeVideo]
  · by_cases hl : isVideoLiked db u v = true <;>
      simp only [likeToggleHandler, hl, if_true, Bool.false_eq_true, if_false] <;>
      exact map_counter_preserves_ids _ _ (fun x => by split <;> rfl)
  · by_cases ht2 : u == t
    · simp [followToggleHandler, ht2]
    · by_cases hif : isFollowing db u t = true <;>
        simp [followToggleHandler, ht2, hif, followUser, unfollowUser]
  · by_cases ht2 : u == t
    · simp [followToggleHandler, ht2]
    · by_cases hif : isFollowing db u t = true <;>
        simp [followToggleHandler, ht2, hif, followUser, unfollowUser]
  · rfl
  · rfl
  · cases pc <;> rfl
  · cases pc <;>
      first
      | rfl
      | exact map_counter_preserves_ids _ _ (fun x => by split <;> rfl)
  · rfl
  · exact map_counter_preserves_ids _ _ (fun x => by split <;> rfl)

/-- Witness for the amended C8 theorem: the concrete video survives a full
upload request against the store that holds it. -/
theorem users_videos_never_deleted_witness :
    video1 ∈ db1.videos ∧
    video1 ∈ (uploadHandler upEnvOk reqSmall db1).2.1.videos :=
  ⟨by decide,
   (users_videos_never_deleted db1 "u1" "v1" "u2" "c1" upEnvOk reqSmall varEnvOk
      (ParseOutcome.ok video1) (ParseOutcome.zodError)).1 video1 (by decide)⟩

end Reelflow

